import Mathlib

/-!
Verification development for the Jellyseerr integration plugin
(`src/plugin.js`).  The definitions below are a shallow embedding of the
plugin's catalog-refresh logic, hash-path routing, content-page rendering,
request-submission workflow and notification lifecycle.  Remote calls are
modelled by passing their results (`Except String _` / `HttpResponse _`)
as explicit arguments; side effects are modelled as explicit event traces.
-/

set_option autoImplicit false

namespace Jellyseerr

/-- A network or studio entry as returned by `GET /networks` / `GET /studios`
(`id`, `name`, optional `logoPath`). -/
structure CatalogEntity where
  id : Nat
  name : String
  logoPath : Option String
deriving DecidableEq

/-- Insert a key/value pair into an association list, replacing an existing
binding of the same key (JS object property assignment `acc[key] = v`). -/
def insertEntry (cache : List (String × CatalogEntity)) (key : String)
    (v : CatalogEntity) : List (String × CatalogEntity) :=
  match cache with
  | [] => [(key, v)]
  | (k, w) :: rest =>
      if k = key then (key, v) :: rest else (k, w) :: insertEntry rest key v

/-- Embeds `data.reduce((acc, e) => { acc[e.id] = e; return acc; }, {})`
from `refreshData` (plugin.js lines 84-87 and 91-94): builds a fresh object
keyed by the stringified entity id. -/
def buildCache (entities : List CatalogEntity) : List (String × CatalogEntity) :=
  entities.foldl (fun acc e => insertEntry acc (toString e.id) e) []

/-- The plugin-instance state touched by `refreshData`: the two catalog
caches and the last-refresh timestamp (milliseconds). -/
structure PluginState where
  networkCache : List (String × CatalogEntity)
  studioCache : List (String × CatalogEntity)
  lastRefresh : Option Nat
deriving DecidableEq

/-- Observable actions performed by one `refreshData` invocation, in order.
`notifyUser` models a user-visible error surface; `refreshData` in the
source only ever writes to the console (`console.error`), modelled as
`logError`. -/
inductive RefreshAction where
  | setTimestamp (t : Nat)
  | fetchNetworks
  | fetchStudios
  | logError (msg : String)
  | notifyUser (msg : String)
deriving DecidableEq

/-- Embeds `refreshData` (plugin.js lines 77-103).  The two remote fetches
are modelled by their results.  The source awaits `getNetworks()` and
`getStudios()` sequentially inside a single `try` block: a networks
failure raises past the studios fetch, so the studios fetch is never
issued in that case.  Returns the new state and the ordered action trace. -/
def refreshData (st : PluginState) (now : Nat)
    (netRes : Except String (List CatalogEntity))
    (stuRes : Except String (List CatalogEntity)) :
    PluginState × List RefreshAction :=
  let st1 := { st with lastRefresh := some now }
  match netRes with
  | .error e =>
      (st1, [.setTimestamp now, .fetchNetworks, .logError e])
  | .ok nets =>
      let st2 := { st1 with networkCache := buildCache nets }
      match stuRes with
      | .error e =>
          (st2, [.setTimestamp now, .fetchNetworks, .fetchStudios, .logError e])
      | .ok stus =>
          ({ st2 with studioCache := buildCache stus },
           [.setTimestamp now, .fetchNetworks, .fetchStudios])

/-- View descriptor produced by the routing chain in `renderCustomView`. -/
inductive ViewDescriptor where
  | browseAll
  | networkDetail (id : String)
  | studioDetail (id : String)
  | unrecognized
deriving DecidableEq

/-- Split a character list at every occurrence of `c`, JS
`String.prototype.split` semantics (`"a/".split('/')` is `["a", ""]`). -/
def splitChar (c : Char) : List Char → List (List Char)
  | [] => [[]]
  | x :: xs =>
      let rest := splitChar c xs
      if x = c then [] :: rest
      else
        match rest with
        | [] => [[x]]
        | r :: rs => (x :: r) :: rs

/-- Embeds `path.split('/').pop()`: the final slash-separated segment. -/
def lastSegment (p : String) : String :=
  String.mk ((splitChar '/' p.data).getLastD [])

/-- Boolean character-list prefix test, used to embed
`String.prototype.startsWith`. -/
def charsLeadWith : List Char → List Char → Bool
  | [], _ => true
  | _ :: _, [] => false
  | p :: ps, s :: ss => p = s && charsLeadWith ps ss

/-- Embeds `path.startsWith(pre)`. -/
def pathStartsWith (path pre : String) : Bool :=
  charsLeadWith pre.data path.data

/-- Embeds the routing chain of `renderCustomView` (plugin.js lines
259-267): exact match on the browse path, then the network prefix
(dispatching on `path.split('/').pop()`), then the studio prefix,
otherwise no dispatch. -/
def resolveView (path : String) : ViewDescriptor :=
  if path = "/jellyseerr/browse" then .browseAll
  else if pathStartsWith path "/jellyseerr/network/" then
    .networkDetail (lastSegment path)
  else if pathStartsWith path "/jellyseerr/studio/" then
    .studioDetail (lastSegment path)
  else .unrecognized

/-- A movie or series as returned by the content endpoints: identity key is
the pair (`id`, `mediaType`); `title`/`name` feed the display name;
`available` reflects library presence. -/
structure ContentItem where
  id : Nat
  mediaType : String
  title : Option String
  name : Option String
  available : Bool
deriving DecidableEq

/-- Embeds the JS expression `item.title || item.name` (a missing or empty
title falls through to the name). -/
def displayName (item : ContentItem) : String :=
  match item.title with
  | some t => if t = "" then item.name.getD "" else t
  | none => item.name.getD ""

/-- A rendered content card (`createContentCard`): carries the identity key
in `data-id` / `data-media-type`, an availability badge, and a request
button exactly when the item is requestable. -/
structure Card where
  id : Nat
  mediaType : String
  badgeClass : String
  badgeText : String
  hasRequestButton : Bool
deriving DecidableEq

/-- The selector `.content-card[data-id="…"][data-media-type="…"]` used by
`requestContent` to locate every rendered representation of an item. -/
def matchesKey (item : ContentItem) (c : Card) : Bool :=
  c.id == item.id && c.mediaType == item.mediaType

/-- The per-card mutation of `requestContent`'s success branch (plugin.js
lines 631-642): badge becomes `requested`, request button is removed. -/
def updateCardOnSuccess (c : Card) : Card :=
  { c with badgeClass := "availability-badge requested",
           badgeText := "Requested",
           hasRequestButton := false }

/-- Observable actions of one `requestContent` invocation, in order.
`setPending` models the optimistic transition to a pending state; the
source's `requestContent` never performs such a transition. -/
inductive WorkflowEvent where
  | remoteSubmit (id : Nat) (mediaType : String)
  | setPending (id : Nat) (mediaType : String)
  | updateCards (id : Nat) (mediaType : String)
  | notify (title message severity : String)
  | logError (id : Nat)
deriving DecidableEq

/-- Embeds `requestContent` (plugin.js lines 622-648).  The remote
`POST /request` is modelled by its result.  The source awaits the remote
call first; on success it shows a success notification and then patches
every card matching the identity key; on failure it logs and shows one
error notification, touching no card.  Returns the rendered cards after
the call and the ordered event trace. -/
def requestContent (item : ContentItem) (cards : List Card)
    (remoteResult : Except String Unit) : List Card × List WorkflowEvent :=
  match remoteResult with
  | .ok _ =>
      (cards.map (fun c => if matchesKey item c then updateCardOnSuccess c else c),
       [.remoteSubmit item.id item.mediaType,
        .notify "Success" (displayName item ++ " has been requested.") "success",
        .updateCards item.id item.mediaType])
  | .error _ =>
      (cards,
       [.remoteSubmit item.id item.mediaType,
        .logError item.id,
        .notify "Error" ("Failed to request " ++ displayName item ++ ".") "error"])

/-- Number of optimistic pending transitions in a workflow trace. -/
def countSetPending (evs : List WorkflowEvent) : Nat :=
  (evs.filter (fun e => match e with | .setPending _ _ => true | _ => false)).length

/-- Number of error-severity notifications in a workflow trace. -/
def countErrorNotify (evs : List WorkflowEvent) : Nat :=
  (evs.filter (fun e => match e with | .notify _ _ sev => sev == "error" | _ => false)).length

/-- An HTTP response as observed by `makeRequest`: `ok`/`status`/
`statusText` plus the parsed JSON body. -/
structure HttpResponse (α : Type) where
  ok : Bool
  status : Nat
  statusText : String
  body : α

/-- Embeds `JellyseerrServerConnector.makeRequest` (plugin.js lines
713-735): a non-ok response raises `Jellyseerr API error: status
statusText`; an ok response yields the parsed body. -/
def makeRequest {α : Type} (resp : HttpResponse α) : Except String α :=
  if resp.ok then .ok resp.body
  else .error ("Jellyseerr API error: " ++ toString resp.status ++ " " ++ resp.statusText)

/-- Body shape of `GET /network/{id}/content` and `GET /studio/{id}/content`
(documented interface: `{movies, tvShows}`). -/
structure ContentResponse where
  movies : List ContentItem
  tvShows : List ContentItem
deriving DecidableEq

/-- Embeds `JellyseerrServerConnector.getNetworkContent` (plugin.js lines
748-750): a pass-through of `makeRequest` on the content endpoint; the
response body is returned unchanged, with no group dropped or reshaped. -/
def getNetworkContent (resp : HttpResponse ContentResponse) :
    Except String ContentResponse :=
  makeRequest resp

/-- A rendered content-page section (movies or TV shows). -/
inductive ContentSection where
  | movies (items : List ContentItem)
  | tvShows (items : List ContentItem)
deriving DecidableEq

/-- Embeds the section construction of `renderNetworkContentPage` /
`renderStudioContentPage` (plugin.js lines 359-369 and 414-424): a section
is appended only when its group is non-empty. -/
def contentSections (content : ContentResponse) : List ContentSection :=
  (if content.movies.length > 0 then [ContentSection.movies content.movies] else [])
    ++ (if content.tvShows.length > 0 then [ContentSection.tvShows content.tvShows] else [])

/-- Result of rendering a detail page. -/
inductive PageResult where
  | notFound (message : String)
  | contentPage (entityName : String) (sections : List ContentSection)
  | errorPage (entityName : String)
deriving DecidableEq

/-- A remote content-fetch call issued while rendering a detail page. -/
inductive RemoteCall where
  | contentFetch (kind : String) (entityId : String)
deriving DecidableEq

/-- Embeds `renderNetworkContentPage` (plugin.js lines 328-380): a cache
miss renders `Network not found` and returns before any remote call; on a
hit the content fetch is issued and either sections or an error
placeholder are rendered.  Returns the page and the remote calls made. -/
def renderNetworkContentPage (cache : List (String × CatalogEntity))
    (networkId : String) (resp : HttpResponse ContentResponse) :
    PageResult × List RemoteCall :=
  match cache.lookup networkId with
  | none => (.notFound "Network not found", [])
  | some network =>
      match makeRequest resp with
      | .ok content =>
          (.contentPage network.name (contentSections content),
           [.contentFetch "network" networkId])
      | .error _ =>
          (.errorPage network.name, [.contentFetch "network" networkId])

/-- Embeds `renderStudioContentPage` (plugin.js lines 383-435), the studio
analogue of `renderNetworkContentPage`. -/
def renderStudioContentPage (cache : List (String × CatalogEntity))
    (studioId : String) (resp : HttpResponse ContentResponse) :
    PageResult × List RemoteCall :=
  match cache.lookup studioId with
  | none => (.notFound "Studio not found", [])
  | some studio =>
      match makeRequest resp with
      | .ok content =>
          (.contentPage studio.name (contentSections content),
           [.contentFetch "studio" studioId])
      | .error _ =>
          (.errorPage studio.name, [.contentFetch "studio" studioId])

/-- State of one notification element: whether it is still in the
notification container and whether the `fade-out` class is present. -/
structure NotifState where
  inList : Bool
  fadeOut : Bool
deriving DecidableEq

/-- A timer action scheduled by `showNotification`. -/
inductive TimerAction where
  | addFadeOut
  | removeNotif
deriving DecidableEq

/-- A scheduled timer with its absolute firing time in milliseconds. -/
structure TimerEvent where
  fireAt : Nat
  action : TimerAction
deriving DecidableEq

/-- The display duration of `showNotification`'s outer `setTimeout`. -/
def notifDisplayMs : Nat := 5000

/-- The exit-transition duration of the nested `setTimeout`. -/
def notifFadeMs : Nat := 500

/-- Embeds the timers of `showNotification` (plugin.js lines 679-686) for a
notification created at `t0`: the outer timeout adds `fade-out` at
`t0 + 5000`; the nested timeout removes the element 500 ms later. -/
def showNotificationTimers (t0 : Nat) : List TimerEvent :=
  [⟨t0 + notifDisplayMs, .addFadeOut⟩,
   ⟨t0 + notifDisplayMs + notifFadeMs, .removeNotif⟩]

/-- Effect of a fired timer on the notification element. -/
def applyTimerAction (s : NotifState) : TimerAction → NotifState
  | .addFadeOut => { s with fadeOut := true }
  | .removeNotif => { s with inList := false }

/-- State of a notification created at `t0`, observed at time `t`: all
timers that have fired by `t` applied, in order, to the freshly appended
element. -/
def notifStateAt (t0 t : Nat) : NotifState :=
  ((showNotificationTimers t0).filter (fun ev => decide (ev.fireAt ≤ t))).foldl
    (fun s ev => applyTimerAction s ev.action) { inList := true, fadeOut := false }

/-- Claim C9: every `refreshData` invocation sets the last-refresh
timestamp to the current time as its very first action, before either
remote fetch, for every combination of fetch outcomes — so the timestamp
is updated even when a catalog fetch fails. -/
theorem refreshData_timestamp_head (st : PluginState) (now : Nat)
    (netRes stuRes : Except String (List CatalogEntity)) :
    (refreshData st now netRes stuRes).1.lastRefresh = some now ∧
    (refreshData st now netRes stuRes).2.head? = some (.setTimestamp now) := by
  cases netRes <;> cases stuRes <;> simp [refreshData]

/-- Claim C1 (amended): the two catalog fetches of `refreshData` are
sequential inside one guarded block.  A Networks failure leaves both
mappings unchanged and the Studios fetch is never issued; when Networks
succeeds its mapping is atomically replaced by the fresh catalog and the
Studios fetch proceeds, a Studios failure leaving only the old Studios
mapping while a Studios success replaces it; no outcome clears a cache
and no outcome surfaces a user-visible error. -/
theorem refreshData_failure_semantics (st : PluginState) (now : Nat)
    (netRes stuRes : Except String (List CatalogEntity)) :
    (∀ e, netRes = .error e →
        (refreshData st now netRes stuRes).1.networkCache = st.networkCache ∧
        (refreshData st now netRes stuRes).1.studioCache = st.studioCache ∧
        RefreshAction.fetchStudios ∉ (refreshData st now netRes stuRes).2) ∧
    (∀ nets, netRes = .ok nets →
        (refreshData st now netRes stuRes).1.networkCache = buildCache nets ∧
        (∀ e, stuRes = .error e →
            (refreshData st now netRes stuRes).1.studioCache = st.studioCache) ∧
        (∀ stus, stuRes = .ok stus →
            (refreshData st now netRes stuRes).1.studioCache = buildCache stus)) ∧
    (∀ m, RefreshAction.notifyUser m ∉ (refreshData st now netRes stuRes).2) := by
  cases netRes <;> cases stuRes <;> simp [refreshData]

/-- Claim C1 witness: a concrete refresh where Networks succeeds and
Studios fails keeps the (empty) Studios mapping untouched. -/
theorem refreshData_failure_semantics_witness :
    (refreshData ⟨[], [], none⟩ 1 (.ok [⟨1, "HBO", none⟩]) (.error "studios down")).1.studioCache
      = ([] : List (String × CatalogEntity)) :=
  ((refreshData_failure_semantics ⟨[], [], none⟩ 1 (.ok [⟨1, "HBO", none⟩])
      (.error "studios down")).2.1 [⟨1, "HBO", none⟩] rfl).2.1 "studios down" rfl

/-- Claim C1 counterexample: with a failing Networks fetch and a Studios
fetch that would succeed, the Studios mapping is not replaced — the
Studios fetch is never even issued — so the two fetches are not
independent: a Networks failure does block the Studios refresh. -/
theorem refreshData_not_independent :
    (refreshData ⟨[], [], none⟩ 0 (.error "network down")
        (.ok [⟨9, "Warner Bros.", none⟩])).1.studioCache
      ≠ buildCache [⟨9, "Warner Bros.", none⟩] ∧
    RefreshAction.fetchStudios ∉
      (refreshData ⟨[], [], none⟩ 0 (.error "network down")
        (.ok [⟨9, "Warner Bros.", none⟩])).2 := by
  decide

/-- Claim C2 (amended): `requestContent` issues the remote submission as
its first action for every item, card set and outcome, and performs no
optimistic pending transition at all — rendered representations are
patched only after a successful remote response. -/
theorem requestContent_remote_first (item : ContentItem) (cards : List Card)
    (res : Except String Unit) :
    (requestContent item cards res).2.head? = some (.remoteSubmit item.id item.mediaType) ∧
    countSetPending (requestContent item cards res).2 = 0 := by
  cases res <;> simp [requestContent, countSetPending, List.filter]

/-- Claim C2 counterexample: for a concrete not-available item with two
rendered representations, the trace of a submission starts with the
remote call and contains no pending transition — the remote call is not
preceded by any optimistic update. -/
theorem requestContent_no_pending :
    (requestContent ⟨42, "movie", some "The Movie", none, false⟩
        [⟨42, "movie", "availability-badge not-available", "Not Available", true⟩,
         ⟨42, "movie", "availability-badge not-available", "Not Available", true⟩]
        (.ok ())).2.head? = some (.remoteSubmit 42 "movie") ∧
    countSetPending
      (requestContent ⟨42, "movie", some "The Movie", none, false⟩
        [⟨42, "movie", "availability-badge not-available", "Not Available", true⟩,
         ⟨42, "movie", "availability-badge not-available", "Not Available", true⟩]
        (.ok ())).2 = 0 := by
  decide

/-- Claim C3: after a successful submission, every rendered card sharing
the submitted item's identity key carries the `requested` badge and no
longer has a request button — no representation keeps the request
affordance. -/
theorem requestContent_success_fanout (item : ContentItem) (cards : List Card)
    (c : Card) (hc : c ∈ (requestContent item cards (.ok ())).1)
    (hk : matchesKey item c = true) :
    c.badgeClass = "availability-badge requested" ∧ c.badgeText = "Requested" ∧
    c.hasRequestButton = false := by
  have hmem : c ∈ cards.map (fun a => if matchesKey item a then updateCardOnSuccess a else a) := hc
  rcases List.mem_map.mp hmem with ⟨a, _, hfa⟩
  by_cases h : matchesKey item a = true
  · rw [if_pos h] at hfa
    subst hfa
    exact ⟨rfl, rfl, rfl⟩
  · rw [if_neg h] at hfa
    subst hfa
    exact absurd hk h

/-- Claim C3 witness: an item rendered as two simultaneous cards; after a
successful submission the updated card is among the results, matches the
identity key, and shows the requested badge with no request button. -/
theorem requestContent_success_fanout_witness :
    (⟨42, "movie", "availability-badge requested", "Requested", false⟩ : Card) ∈
      (requestContent ⟨42, "movie", some "The Movie", none, false⟩
        [⟨42, "movie", "availability-badge not-available", "Not Available", true⟩,
         ⟨42, "movie", "availability-badge not-available", "Not Available", true⟩]
        (.ok ())).1 ∧
    matchesKey ⟨42, "movie", some "The Movie", none, false⟩
      (⟨42, "movie", "availability-badge requested", "Requested", false⟩ : Card) = true ∧
    ((⟨42, "movie", "availability-badge requested", "Requested", false⟩ : Card).badgeClass
        = "availability-badge requested" ∧
      (⟨42, "movie", "availability-badge requested", "Requested", false⟩ : Card).badgeText
        = "Requested" ∧
      (⟨42, "movie", "availability-badge requested", "Requested", false⟩ : Card).hasRequestButton
        = false) :=
  ⟨by decide, by decide,
   requestContent_success_fanout ⟨42, "movie", some "The Movie", none, false⟩
     [⟨42, "movie", "availability-badge not-available", "Not Available", true⟩,
      ⟨42, "movie", "availability-badge not-available", "Not Available", true⟩]
     ⟨42, "movie", "availability-badge requested", "Requested", false⟩
     (by decide) (by decide)⟩

/-- Claim C4: a failed submission leaves the rendered cards untouched, so
every representation of the identity key that satisfied the request
precondition (not-available badge, request button present) still shows
exactly that state, and the trace carries exactly one error notification,
whose message names the item's display name. -/
theorem requestContent_failure_rollback (item : ContentItem) (cards : List Card) (e : String)
    (h : ∀ c ∈ cards, matchesKey item c = true →
        c.badgeClass = "availability-badge not-available" ∧ c.hasRequestButton = true) :
    (requestContent item cards (.error e)).1 = cards ∧
    (∀ c ∈ (requestContent item cards (.error e)).1, matchesKey item c = true →
        c.badgeClass = "availability-badge not-available" ∧ c.hasRequestButton = true) ∧
    countErrorNotify (requestContent item cards (.error e)).2 = 1 ∧
    WorkflowEvent.notify "Error" ("Failed to request " ++ displayName item ++ ".") "error"
        ∈ (requestContent item cards (.error e)).2 := by
  refine ⟨rfl, h, rfl, ?_⟩
  simp [requestContent]

/-- Claim C4 witness: a concrete failed submission for an item with one
not-available representation keeps the card unchanged and emits exactly
one error notification. -/
theorem requestContent_failure_rollback_witness :
    (requestContent ⟨42, "movie", some "The Movie", none, false⟩
        [⟨42, "movie", "availability-badge not-available", "Not Available", true⟩]
        (.error "boom")).1
      = [⟨42, "movie", "availability-badge not-available", "Not Available", true⟩] ∧
    countErrorNotify
      (requestContent ⟨42, "movie", some "The Movie", none, false⟩
        [⟨42, "movie", "availability-badge not-available", "Not Available", true⟩]
        (.error "boom")).2 = 1 :=
  ⟨(requestContent_failure_rollback ⟨42, "movie", some "The Movie", none, false⟩
      [⟨42, "movie", "availability-badge not-available", "Not Available", true⟩]
      "boom" (by decide)).1,
   (requestContent_failure_rollback ⟨42, "movie", some "The Movie", none, false⟩
      [⟨42, "movie", "availability-badge not-available", "Not Available", true⟩]
      "boom" (by decide)).2.2.1⟩

/-- Claim C10: a successful submission is frame-local — any rendered card
whose identity key differs from the submitted item's is returned at its
position completely unchanged, and the card list keeps its length. -/
theorem requestContent_untouched (item : ContentItem) (cards : List Card)
    (i : Nat) (c : Card) (hc : cards[i]? = some c)
    (h : matchesKey item c = false) :
    ((requestContent item cards (.ok ())).1)[i]? = some c ∧
    ((requestContent item cards (.ok ())).1).length = cards.length := by
  constructor
  · simp [requestContent, List.getElem?_map, hc, h]
  · simp [requestContent]

/-- Claim C10 witness: submitting movie 42 leaves the card for TV item 7
byte-for-byte unchanged at its position. -/
theorem requestContent_untouched_witness :
    ((requestContent ⟨42, "movie", some "The Movie", none, false⟩
        [⟨42, "movie", "availability-badge not-available", "Not Available", true⟩,
         ⟨7, "tv", "availability-badge not-available", "Not Available", true⟩]
        (.ok ())).1)[1]?
      = some ⟨7, "tv", "availability-badge not-available", "Not Available", true⟩ ∧
    ((requestContent ⟨42, "movie", some "The Movie", none, false⟩
        [⟨42, "movie", "availability-badge not-available", "Not Available", true⟩,
         ⟨7, "tv", "availability-badge not-available", "Not Available", true⟩]
        (.ok ())).1).length = 2 :=
  requestContent_untouched ⟨42, "movie", some "The Movie", none, false⟩
    [⟨42, "movie", "availability-badge not-available", "Not Available", true⟩,
     ⟨7, "tv", "availability-badge not-available", "Not Available", true⟩]
    1 ⟨7, "tv", "availability-badge not-available", "Not Available", true⟩
    (by decide) (by decide)

/-- Claim C5 (amended): the routing chain maps the exact browse path to
BrowseAll; a path with the network prefix to NetworkDetail of its final
slash-separated segment; a path with the studio prefix (and not the
network prefix) to StudioDetail of its final segment; anything else to
Unrecognized — in that priority order, as a pure function of the path. -/
theorem resolveView_rules (p : String) :
    (p = "/jellyseerr/browse" → resolveView p = .browseAll) ∧
    (p ≠ "/jellyseerr/browse" → pathStartsWith p "/jellyseerr/network/" = true →
        resolveView p = .networkDetail (lastSegment p)) ∧
    (p ≠ "/jellyseerr/browse" → pathStartsWith p "/jellyseerr/network/" = false →
        pathStartsWith p "/jellyseerr/studio/" = true →
        resolveView p = .studioDetail (lastSegment p)) ∧
    (p ≠ "/jellyseerr/browse" → pathStartsWith p "/jellyseerr/network/" = false →
        pathStartsWith p "/jellyseerr/studio/" = false →
        resolveView p = .unrecognized) := by
  refine ⟨?_, ?_, ?_, ?_⟩ <;> intros <;> simp_all [resolveView]

/-- Claim C5 witness: the single-segment network path resolves to its id. -/
theorem resolveView_rules_witness :
    resolveView "/jellyseerr/network/7" = .networkDetail "7" :=
  ((resolveView_rules "/jellyseerr/network/7").2.1 (by decide) (by decide)).trans (by decide)

/-- Claim C5 counterexample: for a network-prefixed path with more than
one trailing segment, the router dispatches on the final segment
(`path.split('/').pop()`), not on everything remaining after the prefix,
so the claim's "remaining segment after the prefix" reading is false. -/
theorem resolveView_remaining_cex :
    pathStartsWith "/jellyseerr/network/7/extra" "/jellyseerr/network/" = true ∧
    String.mk (("/jellyseerr/network/7/extra").data.drop
        ("/jellyseerr/network/").data.length) = "7/extra" ∧
    resolveView "/jellyseerr/network/7/extra" = .networkDetail "extra" ∧
    ViewDescriptor.networkDetail "extra" ≠ .networkDetail "7/extra" := by
  decide

/-- Claim C6: navigating to a network or studio whose id is absent from
the corresponding catalog cache renders the terminal not-found page and
issues no content-fetch remote call. -/
theorem renderContentPage_notFound (ncache scache : List (String × CatalogEntity))
    (nid sid : String) (nresp sresp : HttpResponse ContentResponse)
    (hn : ncache.lookup nid = none) (hs : scache.lookup sid = none) :
    renderNetworkContentPage ncache nid nresp = (.notFound "Network not found", []) ∧
    renderStudioContentPage scache sid sresp = (.notFound "Studio not found", []) := by
  simp [renderNetworkContentPage, renderStudioContentPage, hn, hs]

/-- Claim C6 witness: network id 7 on an empty cache and studio id 9 on a
cache holding only id 1 both yield not-found with zero remote calls. -/
theorem renderContentPage_notFound_witness :
    renderNetworkContentPage [] "7" ⟨true, 200, "OK", ⟨[], []⟩⟩
      = (.notFound "Network not found", []) ∧
    renderStudioContentPage [("1", ⟨1, "Warner Bros.", none⟩)] "9"
        ⟨true, 200, "OK", ⟨[], []⟩⟩
      = (.notFound "Studio not found", []) :=
  renderContentPage_notFound [] [("1", ⟨1, "Warner Bros.", none⟩)] "7" "9"
    ⟨true, 200, "OK", ⟨[], []⟩⟩ ⟨true, 200, "OK", ⟨[], []⟩⟩ (by decide) (by decide)

/-- Claim C7: the content fetch returns the server body unchanged, hence
always both the movies group and the TV group (possibly empty); when each
group is homogeneous in its media type the two groups are exactly the
partition of all items by media type; and a group's section appears in
the rendered view if and only if the group is non-empty, so empty groups
are dropped by the consuming view, never by the fetch component. -/
theorem getNetworkContent_groups (resp : HttpResponse ContentResponse)
    (hok : resp.ok = true)
    (hm : ∀ m ∈ resp.body.movies, m.mediaType = "movie")
    (ht : ∀ s ∈ resp.body.tvShows, s.mediaType = "tv") :
    getNetworkContent resp = .ok resp.body ∧
    resp.body.movies
      = (resp.body.movies ++ resp.body.tvShows).filter (fun i => i.mediaType == "movie") ∧
    resp.body.tvShows
      = (resp.body.movies ++ resp.body.tvShows).filter (fun i => i.mediaType == "tv") ∧
    (ContentSection.movies resp.body.movies ∈ contentSections resp.body ↔
        resp.body.movies ≠ []) ∧
    (ContentSection.tvShows resp.body.tvShows ∈ contentSections resp.body ↔
        resp.body.tvShows ≠ []) := by
  refine ⟨by simp [getNetworkContent, makeRequest, hok], ?_, ?_, ?_, ?_⟩
  · rw [List.filter_append]
    rw [List.filter_eq_self.mpr (fun a ha => by simp [hm a ha]),
        List.filter_eq_nil_iff.mpr (fun a ha => by simp [ht a ha])]
    simp
  · rw [List.filter_append]
    rw [List.filter_eq_nil_iff.mpr (fun a ha => by simp [hm a ha]),
        List.filter_eq_self.mpr (fun a ha => by simp [ht a ha])]
    simp
  · by_cases hm0 : resp.body.movies = [] <;>
      by_cases ht0 : resp.body.tvShows = [] <;>
      simp [contentSections, hm0, ht0, List.length_pos]
  · by_cases hm0 : resp.body.movies = [] <;>
      by_cases ht0 : resp.body.tvShows = [] <;>
      simp [contentSections, hm0, ht0, List.length_pos]

/-- Claim C7 witness: a response with one movie and an empty TV group is
returned by the fetch with both groups intact, and the empty TV group is
the one the view omits. -/
theorem getNetworkContent_groups_witness :
    getNetworkContent ⟨true, 200, "OK", ⟨[⟨1, "movie", some "A", none, true⟩], []⟩⟩
      = .ok ⟨[⟨1, "movie", some "A", none, true⟩], []⟩ ∧
    (ContentSection.tvShows [] ∈
        contentSections (⟨[⟨1, "movie", some "A", none, true⟩], []⟩ : ContentResponse) ↔
      ([] : List ContentItem) ≠ []) :=
  ⟨(getNetworkContent_groups ⟨true, 200, "OK", ⟨[⟨1, "movie", some "A", none, true⟩], []⟩⟩
      (by decide) (by decide) (by decide)).1,
   (getNetworkContent_groups ⟨true, 200, "OK", ⟨[⟨1, "movie", some "A", none, true⟩], []⟩⟩
      (by decide) (by decide) (by decide)).2.2.2.2⟩

/-- Claim C8: a notification created at `t0` is in the notification list
exactly while fewer than 5500 ms have passed — so it is present through
`t0 + 5000` and gone from `t0 + 5500` on — and its exit transition
(`fade-out`) is active exactly from `t0 + 5000` on. -/
theorem showNotification_lifecycle (t0 t : Nat) :
    ((notifStateAt t0 t).inList = true ↔ t < t0 + 5500) ∧
    ((notifStateAt t0 t).fadeOut = true ↔ t0 + 5000 ≤ t) := by
  by_cases h1 : t0 + 5000 ≤ t <;> by_cases h2 : t0 + 5000 + 500 ≤ t <;>
    simp [notifStateAt, showNotificationTimers, applyTimerAction,
      notifDisplayMs, notifFadeMs, List.filter, h1, h2] <;>
    omega

end Jellyseerr
